import Mathlib

/-!
Verification of the retrieval/rate-limiting core of the YourRAG backend.

The development shallowly embeds the algorithmic parts of the repository:

* `DocumentStore.search` (src/document_store.py): the embedding step, the
  SQL issued against the pgvector store (filtering, ordering, pagination,
  counting), and the formatting of the returned rows.
* `EmbeddingService.get_embedding` (src/embedding_service.py): modelled by
  its observable outcomes (raises, or returns a list of vectors).
* the token-bucket Lua script and `RedisService.acquire_token`
  (src/redis_service.py).
* the `rate_limit` decorator (src/rate_limiter.py).
* the search route handlers (src/routes/documents.py, src/routes/chat.py):
  FastAPI query validation, threshold inversion, pagination arithmetic.

Numbers are embedded as exact rationals (`ℚ`); the cosine-distance operator
`<=>` is computed by the pgvector extension (not repository code), so the
search model is parametric in a distance function `dist : List ℚ → List ℚ → ℚ`.
The ordering produced by `ORDER BY distance ASC` is modelled relationally:
SQL fixes the relative order of rows with distinct distances but leaves the
order of equal-distance rows unspecified, so a query result is any
permutation of the eligible rows that is sorted by distance, truncated by
`LIMIT`/`OFFSET`.
-/

namespace YourRAG

/-- A row of the `"Document"` table, as the search SQL sees it:
`id`, `userId`, nullable `groupId`, `content`, `metadata` (opaque jsonb,
kept as a string) and the pgvector `embedding`. -/
structure Document where
  id : ℕ
  userId : ℕ
  groupId : Option ℕ
  content : String
  metadata : String
  embedding : List ℚ
deriving DecidableEq, Repr

/-- A formatted search result as built by `DocumentStore.search`
(src/document_store.py lines 155-162): `id`, `content`, `metadata` and the
cosine distance of the row to the query vector. -/
structure SearchRow where
  id : ℕ
  content : String
  metadata : String
  distance : ℚ
deriving DecidableEq, Repr

/-- The optional `"groupId" = $n` conjunct of the search SQL: present
(and an equality test) exactly when the caller passed a `group_id`. -/
def groupMatchB (gid : Option ℕ) (d : Document) : Bool :=
  match gid with
  | some g => d.groupId == some g
  | none => true

/-- The `WHERE` clause of the search SQL (src/document_store.py lines
98-110 and 127-138): `"userId" = $u`, optionally `"groupId" = $g`, and
`(embedding <=> $qv) <= threshold`. -/
def eligibleDoc (dist : List ℚ → List ℚ → ℚ) (qv : List ℚ) (uid : ℕ)
    (gid : Option ℕ) (threshold : ℚ) (d : Document) : Bool :=
  d.userId == uid && groupMatchB gid d && decide (dist qv d.embedding ≤ threshold)

/-- Relational semantics of the result query
`SELECT ... WHERE <eligible> ORDER BY distance ASC LIMIT l OFFSET o`:
the returned rows are a `LIMIT`/`OFFSET` window of some permutation of the
eligible rows that is sorted (non-strictly) by distance.  SQL does not
constrain the relative order of rows with equal distance, hence the
existential over the sorted permutation. -/
def IsSearchRows (dist : List ℚ → List ℚ → ℚ) (qv : List ℚ) (table : List Document)
    (uid : ℕ) (gid : Option ℕ) (threshold : ℚ) (lim off : ℕ)
    (rows : List Document) : Prop :=
  ∃ l : List Document,
    l.Perm (table.filter (eligibleDoc dist qv uid gid threshold)) ∧
    l.Pairwise (fun a b => dist qv a.embedding ≤ dist qv b.embedding) ∧
    rows = (l.drop off).take lim

/-- Row formatting done by `DocumentStore.search` on each returned row
(src/document_store.py lines 155-162). -/
def formatRow (dist : List ℚ → List ℚ → ℚ) (qv : List ℚ) (d : Document) : SearchRow :=
  { id := d.id, content := d.content, metadata := d.metadata,
    distance := dist qv d.embedding }

/-- Full observable output of the SQL phase of `DocumentStore.search`:
the formatted page of rows, and `total` from the companion
`SELECT COUNT(*)` over the same `WHERE` clause. -/
def SearchOutput (dist : List ℚ → List ℚ → ℚ) (qv : List ℚ) (table : List Document)
    (uid : ℕ) (gid : Option ℕ) (threshold : ℚ) (lim off : ℕ)
    (out : List SearchRow × ℕ) : Prop :=
  ∃ rows, IsSearchRows dist qv table uid gid threshold lim off rows ∧
    out.1 = rows.map (formatRow dist qv) ∧
    out.2 = (table.filter (eligibleDoc dist qv uid gid threshold)).length

/-! ### Concrete instances used by witnesses and counterexamples

`dist0` is a concrete stand-in for the pgvector `<=>` operator:
`1 - ⟨q, v⟩`, which coincides with cosine distance on unit vectors. -/

def dist0 (q v : List ℚ) : ℚ := 1 - (List.zipWith (· * ·) q v).sum

def qv0 : List ℚ := [1, 0]

def docA : Document := ⟨1, 7, none, "cat", "\x7b\x7d", [1, 0]⟩

def docB : Document := ⟨2, 7, none, "cat copy", "\x7b\x7d", [1, 0]⟩

def docC : Document := ⟨3, 9, none, "cat", "\x7b\x7d", [1, 0]⟩

/-- The two-document table used to exhibit equal-distance ties. -/
def tableAB : List Document := [docA, docB]

lemma filter_tableAB : tableAB.filter (eligibleDoc dist0 qv0 7 none 1) = [docA, docB] := by
  norm_num [tableAB, eligibleDoc, groupMatchB, dist0, qv0, docA, docB, List.filter]

lemma pairwise_BA :
    List.Pairwise (fun a b => dist0 qv0 a.embedding ≤ dist0 qv0 b.embedding) [docB, docA] := by
  norm_num [dist0, qv0, docA, docB, List.pairwise_cons]

lemma pairwise_AB :
    List.Pairwise (fun a b => dist0 qv0 a.embedding ≤ dist0 qv0 b.embedding) [docA, docB] := by
  norm_num [dist0, qv0, docA, docB, List.pairwise_cons]

lemma isSearchRows_BA : IsSearchRows dist0 qv0 tableAB 7 none 1 10 0 [docB, docA] := by
  refine ⟨[docB, docA], ?_, pairwise_BA, rfl⟩
  rw [filter_tableAB]
  exact List.Perm.swap _ _ _

lemma isSearchRows_AB : IsSearchRows dist0 qv0 tableAB 7 none 1 10 0 [docA, docB] := by
  refine ⟨[docA, docB], ?_, pairwise_AB, rfl⟩
  rw [filter_tableAB]

lemma searchOutput_BA :
    SearchOutput dist0 qv0 tableAB 7 none 1 10 0
      ([formatRow dist0 qv0 docB, formatRow dist0 qv0 docA], 2) := by
  refine ⟨[docB, docA], isSearchRows_BA, rfl, ?_⟩
  rw [filter_tableAB]; rfl

lemma searchOutput_AB :
    SearchOutput dist0 qv0 tableAB 7 none 1 10 0
      ([formatRow dist0 qv0 docA, formatRow dist0 qv0 docB], 2) := by
  refine ⟨[docA, docB], isSearchRows_AB, rfl, ?_⟩
  rw [filter_tableAB]; rfl

/-- A table mixing two owners: `docA` is owned by user 7, `docC` by
user 9 (with the same embedding, hence the same distance). -/
def tableAC : List Document := [docA, docC]

lemma filter_tableAC : tableAC.filter (eligibleDoc dist0 qv0 7 none 1) = [docA] := by
  norm_num [tableAC, eligibleDoc, groupMatchB, dist0, qv0, docA, docC, List.filter]
  rfl

lemma searchOutput_AC :
    SearchOutput dist0 qv0 tableAC 7 none 1 10 0 ([formatRow dist0 qv0 docA], 1) := by
  refine ⟨[docA], ⟨[docA], ?_, ?_, rfl⟩, rfl, ?_⟩
  · rw [filter_tableAC]
  · simp
  · rw [filter_tableAC]; rfl

/-! ### Embedding gateway and the embedding phase of `DocumentStore.search`

`EmbeddingService.get_embeddings` (src/embedding_service.py lines 30-69)
either raises (every non-retryable exception and the exhausted-retry path
re-raise) or returns the list of embedding vectors parsed from the HTTP
response.  `get_embedding` (lines 125-130) takes the head of that list, or
`[]` when the list is empty. -/

/-- Observable behaviour of one `get_embeddings([text])` call: the call
raises, or returns a list of vectors. -/
inductive GatewayBehavior where
  | raises : GatewayBehavior
  | returnsList : List (List ℚ) → GatewayBehavior
deriving DecidableEq, Repr

/-- `EmbeddingService.get_embedding` (src/embedding_service.py lines
125-130): propagates an exception from `get_embeddings`, otherwise returns
the first vector, or `[]` when the list is empty. -/
def get_embedding : GatewayBehavior → Except Unit (List ℚ)
  | .raises => .error ()
  | .returnsList vs => .ok (vs.headD [])

/-- The embedding phase of `DocumentStore.search` (src/document_store.py
lines 86-88): `query_embedding = get_embedding(query)` with no surrounding
try/except, then `if not query_embedding: return [], 0`, else the SQL phase
runs on the vector (`execStore`, the rest of `search`). -/
def searchEmbedStage (g : GatewayBehavior)
    (execStore : List ℚ → List SearchRow × ℕ) : Except Unit (List SearchRow × ℕ) :=
  match get_embedding g with
  | .error e => .error e
  | .ok v => if v.isEmpty then .ok ([], 0) else .ok (execStore v)

/-! ### Token bucket (src/redis_service.py)

`_token_bucket_script` (lines 16-52) is the Lua script executed atomically
by Redis: read the bucket hash, initialise an absent bucket to a full one,
refill by elapsed time capped at capacity, spend if enough tokens, write
the new state back. -/

/-- The persisted bucket hash: fields `tokens` and `last_refill`. -/
structure BucketState where
  tokens : ℚ
  lastRefill : ℚ
deriving DecidableEq, Repr

/-- The token-bucket Lua script (src/redis_service.py lines 16-52) as a
pure state transformer: `none` is an absent key.  Returns the `allowed`
flag and the state written back by `HMSET`. -/
def tokenBucketScript (capacity rate now requested : ℚ)
    (st : Option BucketState) : Bool × BucketState :=
  let tokens0 := match st with | none => capacity | some s => s.tokens
  let lastRefill := match st with | none => now | some s => s.lastRefill
  let delta := max 0 (now - lastRefill)
  let tokens1 := min capacity (tokens0 + delta * rate)
  if requested ≤ tokens1 then (true, ⟨tokens1 - requested, now⟩)
  else (false, ⟨tokens1, now⟩)

/-- Outcome of the Redis interaction inside `acquire_token`: the `eval`
call raises (store unreachable), or the script runs on the stored bucket
state (possibly absent). -/
inductive StoreAccess where
  | unreachable : StoreAccess
  | state : Option BucketState → StoreAccess
deriving DecidableEq, Repr

/-- `RedisService.acquire_token` (src/redis_service.py lines 154-187):
if no client is connected (`cls._instance` is None) return True; otherwise
run the Lua script via `eval`, and on any exception return True. -/
def acquire_token (connected : Bool) (access : StoreAccess)
    (capacity rate now requested : ℚ) : Bool :=
  if connected = false then true
  else
    match access with
    | .unreachable => true
    | .state st => (tokenBucketScript capacity rate now requested st).1

/-- The bucket after the `(k+1)`-th of a run of single-token acquisitions
all carrying the same timestamp `t`, starting from an absent key: the
burst of back-to-back `acquire_token(..., tokens=1)` calls of the
conservation scenario. -/
def burstCall (capacity rate t : ℚ) : ℕ → Bool × BucketState
  | 0 => tokenBucketScript capacity rate t 1 none
  | k + 1 => tokenBucketScript capacity rate t 1 (some (burstCall capacity rate t k).2)

/-! ### The `rate_limit` decorator (src/rate_limiter.py) -/

/-- The parts of a FastAPI `Request` that the wrapper reads: the
`CF-Connecting-IP` and `X-Forwarded-For` headers (absent headers are
`none`) and `request.client.host` (`none` when `request.client` is None). -/
structure RequestModel where
  cfConnectingIp : Option String
  xForwardedFor : Option String
  clientHost : Option String
deriving DecidableEq, Repr

/-- Python truthiness of an optional string: `None` and `""` are falsy. -/
def pyTruthy : Option String → Option String
  | none => none
  | some s => if s = "" then none else some s

/-- Client-identity resolution of the wrapper (src/rate_limiter.py lines
47-58): `CF-Connecting-IP` header if truthy, else the first
comma-separated entry of `X-Forwarded-For` stripped of whitespace, else
`request.client.host` (or `"unknown"` when `request.client` is None). -/
def clientIpOf (r : RequestModel) : String :=
  let ip1 := pyTruthy r.cfConnectingIp
  let ip2 :=
    match ip1 with
    | some s => some s
    | none =>
      match pyTruthy r.xForwardedFor with
      | some f => pyTruthy (some ((f.splitOn ",").headD f).trim)
      | none => none
  match ip2 with
  | some s => s
  | none =>
    match r.clientHost with
    | some h => h
    | none => "unknown"

/-- The two rate-limit configuration pairs read from `config`
(src/config.py): `GLOBAL_RATE_LIMIT_CAPACITY`/`GLOBAL_RATE_LIMIT_RATE` and
`RATE_LIMIT_CAPACITY`/`RATE_LIMIT_RATE`.  Capacities are ints (a
non-positive capacity disables the layer). -/
structure RateLimitConfig where
  globalCapacity : ℤ
  globalRate : ℚ
  clientCapacity : ℤ
  clientRate : ℚ
deriving DecidableEq, Repr

/-- One `RedisService.acquire_token` invocation issued by the wrapper:
the bucket key and the capacity/rate it was called with. -/
structure AcquireCall where
  key : String
  capacity : ℤ
  rate : ℚ
deriving DecidableEq, Repr

/-- Control-flow outcome of the wrapper: the wrapped handler ran, or an
HTTP 429 was raised by the global or the per-client check. -/
inductive WrapperOutcome where
  | handled : WrapperOutcome
  | rejectedGlobal : WrapperOutcome
  | rejectedClient : WrapperOutcome
deriving DecidableEq, Repr

/-- The `wrapper` closure produced by `rate_limit(key_prefix)`
(src/rate_limiter.py lines 15-75).  `kp` is the `key_prefix` argument,
`decision` is the boolean returned by `RedisService.acquire_token` for a
given key, and `req` is the `Request` object found among the handler's
arguments (`none` when no argument is a `Request`).  Besides the outcome
it returns the list of acquire calls issued, in order. -/
def rate_limit_wrapper (cfg : RateLimitConfig) (kp : String)
    (decision : String → Bool) (req : Option RequestModel) :
    WrapperOutcome × List AcquireCall :=
  let clientStage : List AcquireCall → WrapperOutcome × List AcquireCall := fun calls =>
    if cfg.clientCapacity ≤ 0 then (.handled, calls)
    else
      match req with
      | none => (.handled, calls)
      | some r =>
        let key := kp ++ ":" ++ clientIpOf r
        let c : AcquireCall := ⟨key, cfg.clientCapacity, cfg.clientRate⟩
        if decision key then (.handled, calls ++ [c])
        else (.rejectedClient, calls ++ [c])
  if 0 < cfg.globalCapacity then
    let g : AcquireCall := ⟨"global_limit:" ++ kp, cfg.globalCapacity, cfg.globalRate⟩
    if decision ("global_limit:" ++ kp) then clientStage [g]
    else (.rejectedGlobal, [g])
  else clientStage []

/-! ### Route handlers (src/routes/documents.py, src/routes/chat.py) -/

/-- The argument tuple a route passes to `DocumentStore.search`. -/
structure StoreSearchArgs where
  userId : ℕ
  threshold : ℚ
  lim : ℤ
  off : ℤ
  groupId : Option ℕ
deriving DecidableEq, Repr

/-- The user similarity threshold resolution shared by both routes:
`current_user.similarityThreshold if ... is not None else 0.8`. -/
def userSimilarity (simThr : Option ℚ) : ℚ := simThr.getD (4 / 5)

/-- The `search_documents` route (src/routes/documents.py lines 866-899)
up to its `store.search` call.  FastAPI validates
`page: int = Query(1, ge=1)` and `page_size: int = Query(5, ge=1, le=50)`
before the handler body runs; an invalid value yields a 422 validation
error (`none` here) and the handler — hence the store — is never reached.
On success the handler computes `offset = (page - 1) * page_size`,
`distance_threshold = 1.0 - user_similarity`, and calls
`store.search(user_id, query, threshold, limit=page_size, offset=offset,
group_id)`. -/
def search_documents_route (uid : ℕ) (simThr : Option ℚ) (page pageSize : ℤ)
    (gid : Option ℕ) : Option StoreSearchArgs :=
  if 1 ≤ page ∧ 1 ≤ pageSize ∧ pageSize ≤ 50 then
    some ⟨uid, 1 - userSimilarity simThr, pageSize, (page - 1) * pageSize, gid⟩
  else none

/-- Python `x or d` on an optional int: `None` and `0` are falsy. -/
def pyOrInt (x : Option ℤ) (d : ℤ) : ℤ :=
  match x with
  | none => d
  | some n => if n = 0 then d else n

/-- The `rag_query` route (src/routes/chat.py lines 26-50) up to its
`store.search` call: `top_k = input_data.top_k or current_user.topK or 5`,
`distance_threshold = 1.0 - user_similarity`, and
`store.search(user_id, query, threshold, limit=top_k)` with the default
offset 0 and no group filter. -/
def rag_query_args (uid : ℕ) (simThr : Option ℚ) (inputTopK userTopK : Option ℤ) :
    StoreSearchArgs :=
  ⟨uid, 1 - userSimilarity simThr, pyOrInt inputTopK (pyOrInt userTopK 5), 0, none⟩

/-! ## Claims -/

/-- Claim C1 counterexample: when the Embedding Gateway raises on the
query text, `DocumentStore.search` does not return `([], 0)` — the
exception propagates to its caller (`search` has no try/except around
`get_embedding`), even though the store phase would have produced a
non-empty page. -/
theorem claim_C1_counterexample :
    searchEmbedStage .raises (fun _ => ([⟨1, "cat", "\x7b\x7d", 0⟩], 1)) = .error () ∧
    searchEmbedStage .raises (fun _ => ([⟨1, "cat", "\x7b\x7d", 0⟩], 1)) ≠ .ok ([], 0) := by
  exact ⟨rfl, by simp [searchEmbedStage, get_embedding]⟩

/-- Claim C1 (amended): if the Embedding Gateway produces no vector for
the query text (an empty vector list, or an empty leading vector),
`DocumentStore.search` returns `([], 0)` without consulting the store;
but if the gateway raises, the exception propagates to the caller of
`search`. -/
theorem claim_C1 (execStore : List ℚ → List SearchRow × ℕ) :
    searchEmbedStage (.returnsList []) execStore = .ok ([], 0) ∧
    searchEmbedStage (.returnsList [[]]) execStore = .ok ([], 0) ∧
    searchEmbedStage .raises execStore = .error () :=
  ⟨rfl, rfl, rfl⟩

/-- Claim C1 witness: the amended behaviour at a concrete store phase. -/
theorem claim_C1_witness :
    searchEmbedStage (.returnsList []) (fun _ => ([⟨5, "dog", "\x7b\x7d", 1⟩], 3)) = .ok ([], 0) :=
  (claim_C1 (fun _ => ([⟨5, "dog", "\x7b\x7d", 1⟩], 3))).1

/-- Claim C7: whenever the bucket store is unreachable — no Redis client
is connected, or the `eval` call raises — `acquire_token` returns `True`
(fail open), never denying and never raising. -/
theorem claim_C7 (connected : Bool) (access : StoreAccess)
    (capacity rate now requested : ℚ)
    (h : connected = false ∨ access = .unreachable) :
    acquire_token connected access capacity rate now requested = true := by
  rcases h with h | h
  · simp [acquire_token, h]
  · subst h; cases connected <;> simp [acquire_token]

/-- Claim C7 witness: a disconnected client is allowed through. -/
theorem claim_C7_witness :
    acquire_token false (.state none) 5 1 0 1 = true :=
  claim_C7 false (.state none) 5 1 0 1 (Or.inl rfl)

/-- Claim C8: after any execution of the token-bucket script — from any
stored state (including an absent bucket) and after an arbitrarily long
idle period — the stored token count never exceeds the configured
capacity, as long as a non-negative number of tokens is requested (every
caller in the repository requests 1). -/
theorem claim_C8 (capacity rate now requested : ℚ) (st : Option BucketState)
    (h : 0 ≤ requested) :
    (tokenBucketScript capacity rate now requested st).2.tokens ≤ capacity := by
  cases st <;>
    · simp only [tokenBucketScript]
      split
      · exact le_trans (sub_le_self _ h) (min_le_left _ _)
      · exact min_le_left _ _

/-- Claim C8 witness: a concrete long-idle refill stays below capacity. -/
theorem claim_C8_witness :
    (tokenBucketScript 5 2 1000000 1 (some ⟨5, 0⟩)).2.tokens ≤ 5 :=
  claim_C8 5 2 1000000 1 (some ⟨5, 0⟩) (by norm_num)

/-- Claim C9: a search request with a non-positive `limit` (= `page_size`)
or a negative derived `offset` (= `(page - 1) * page_size`) fails the
route's declarative validation (`page ≥ 1`, `1 ≤ page_size ≤ 50`) before
the handler body runs, so the store is never queried; conversely every
store call the route does issue carries a positive limit and a
non-negative offset. -/
theorem claim_C9 (uid : ℕ) (simThr : Option ℚ) (page pageSize : ℤ) (gid : Option ℕ) :
    ((pageSize ≤ 0 ∨ (page - 1) * pageSize < 0) →
      search_documents_route uid simThr page pageSize gid = none) ∧
    (∀ args, search_documents_route uid simThr page pageSize gid = some args →
      0 < args.lim ∧ 0 ≤ args.off) := by
  unfold search_documents_route
  by_cases hcond : 1 ≤ page ∧ 1 ≤ pageSize ∧ pageSize ≤ 50
  · obtain ⟨hp, hs, h50⟩ := hcond
    constructor
    · rintro (h | h)
      · linarith
      · nlinarith
    · rintro args h
      rw [if_pos ⟨hp, hs, h50⟩] at h
      cases Option.some.inj h
      constructor
      · simpa using lt_of_lt_of_le one_pos hs
      · exact mul_nonneg (by linarith) (by linarith)
  · rw [if_neg hcond]
    exact ⟨fun _ => rfl, fun args h => by cases h⟩

/-- Claim C9 witness: `page_size = 0` is rejected before any store call. -/
theorem claim_C9_witness : search_documents_route 7 none 1 0 none = none :=
  (claim_C9 7 none 1 0 none).1 (Or.inl le_rfl)

/-- Claim C2 counterexample: over a table with two equal-distance
documents (ids 1 and 2, identical embeddings), both orders of the tied
pair are admissible outputs of the issued query — it orders by distance
alone with no id tie-break — so the claimed ascending-id tie-break is not
guaranteed, and two runs of the identical search may return different
ordered results. -/
theorem claim_C2_counterexample :
    SearchOutput dist0 qv0 tableAB 7 none 1 10 0
      ([formatRow dist0 qv0 docB, formatRow dist0 qv0 docA], 2) ∧
    SearchOutput dist0 qv0 tableAB 7 none 1 10 0
      ([formatRow dist0 qv0 docA, formatRow dist0 qv0 docB], 2) ∧
    ([formatRow dist0 qv0 docB, formatRow dist0 qv0 docA], 2) ≠
      (([formatRow dist0 qv0 docA, formatRow dist0 qv0 docB], 2) : List SearchRow × ℕ) ∧
    ¬ List.Pairwise (fun a b : SearchRow =>
        a.distance < b.distance ∨ (a.distance = b.distance ∧ a.id < b.id))
      [formatRow dist0 qv0 docB, formatRow dist0 qv0 docA] := by
  refine ⟨searchOutput_BA, searchOutput_AB, ?_, ?_⟩
  · simp [formatRow, docA, docB]
  · norm_num [formatRow, docA, docB, dist0, qv0, List.pairwise_cons]

/-- Claim C2 (amended): every admissible output of a search is ordered
ascending by distance; but the issued query orders by distance alone
(`ORDER BY distance ASC`, no id tie-break), so the order of equal-distance
ties is unconstrained and repeated identical searches are not guaranteed
identical ordered results. -/
theorem claim_C2 (dist : List ℚ → List ℚ → ℚ) (qv : List ℚ) (table : List Document)
    (uid : ℕ) (gid : Option ℕ) (threshold : ℚ) (lim off : ℕ)
    (out : List SearchRow × ℕ)
    (h : SearchOutput dist qv table uid gid threshold lim off out) :
    out.1.Pairwise (fun a b => a.distance ≤ b.distance) := by
  obtain ⟨rows, ⟨l, hperm, hsorted, hrows⟩, hout, -⟩ := h
  rw [hout]
  refine List.Pairwise.map _ (fun a b hab => hab) ?_
  rw [hrows]
  exact List.Pairwise.sublist ((List.take_sublist _ _).trans (List.drop_sublist _ _)) hsorted

/-- Claim C2 witness: the amended ordering property at a concrete search
output. -/
theorem claim_C2_witness :
    List.Pairwise (fun a b : SearchRow => a.distance ≤ b.distance)
      (([formatRow dist0 qv0 docA, formatRow dist0 qv0 docB], 2) : List SearchRow × ℕ).1 :=
  claim_C2 dist0 qv0 tableAB 7 none 1 10 0 _ searchOutput_AB

/-- Claim C3: every row returned by a search comes from a document of the
queried table that is owned by the searching user and, whenever a group
filter was supplied, belongs to that group — a document owned by a
different user is never returned, whatever its distance. -/
theorem claim_C3 (dist : List ℚ → List ℚ → ℚ) (qv : List ℚ) (table : List Document)
    (uid : ℕ) (gid : Option ℕ) (threshold : ℚ) (lim off : ℕ)
    (out : List SearchRow × ℕ)
    (h : SearchOutput dist qv table uid gid threshold lim off out) :
    ∀ r ∈ out.1, ∃ d : Document, d ∈ table ∧ formatRow dist qv d = r ∧
      d.userId = uid ∧ ∀ g, gid = some g → d.groupId = some g := by
  obtain ⟨rows, ⟨l, hperm, hsorted, hrows⟩, hout, -⟩ := h
  intro r hr
  rw [hout] at hr
  obtain ⟨d, hd, hfd⟩ := List.mem_map.1 hr
  have hdl : d ∈ l := by
    rw [hrows] at hd
    exact List.drop_subset _ _ (List.take_subset _ _ hd)
  have hfilter := hperm.mem_iff.1 hdl
  obtain ⟨htab, helig⟩ := List.mem_filter.1 hfilter
  refine ⟨d, htab, hfd, ?_, ?_⟩
  · simp only [eligibleDoc, Bool.and_eq_true, beq_iff_eq] at helig
    exact helig.1.1
  · intro g hg
    subst hg
    simp only [eligibleDoc, groupMatchB, Bool.and_eq_true, beq_iff_eq] at helig
    exact helig.1.2

/-- Claim C3 witness: with a foreign-user document (`docC`, owner 9) in
the table, a search as user 7 returns only rows backed by documents of
user 7. -/
theorem claim_C3_witness :
    ∃ d : Document, d ∈ tableAC ∧ formatRow dist0 qv0 d = formatRow dist0 qv0 docA ∧
      d.userId = 7 ∧ ∀ g, (none : Option ℕ) = some g → d.groupId = some g :=
  claim_C3 dist0 qv0 tableAC 7 none 1 10 0 _ searchOutput_AC
    (formatRow dist0 qv0 docA) (List.mem_singleton.2 rfl)

/-- Claim C4: when the caller's similarity threshold is `s`, both
caller-facing routes (`search_documents` and `rag_query`) invoke the
engine with `distanceThreshold` exactly `1 - s`, and a document matching
the tenant/group scope is eligible under that threshold exactly when its
cosine distance to the query vector is at most `1 - s`. -/
theorem claim_C4 (uid : ℕ) (s : ℚ) (page pageSize : ℤ) (gid : Option ℕ)
    (inputTopK userTopK : Option ℤ) (args : StoreSearchArgs)
    (h : search_documents_route uid (some s) page pageSize gid = some args)
    (dist : List ℚ → List ℚ → ℚ) (qv : List ℚ) (d : Document)
    (hu : d.userId = uid) (hg : groupMatchB gid d = true) :
    args.threshold = 1 - s ∧
    (rag_query_args uid (some s) inputTopK userTopK).threshold = 1 - s ∧
    (eligibleDoc dist qv uid gid (1 - s) d = true ↔ dist qv d.embedding ≤ 1 - s) := by
  refine ⟨?_, rfl, ?_⟩
  · unfold search_documents_route at h
    split at h
    · cases Option.some.inj h
      rfl
    · cases h
  · simp [eligibleDoc, hu, hg]

/-- Claim C4 witness: similarity `0.8` yields distance threshold
`1 - 0.8 = 0.2`, and a scoped document at distance `0` is eligible. -/
theorem claim_C4_witness :
    (StoreSearchArgs.mk 7 (1 - 4 / 5) 5 0 none).threshold = 1 - 4 / 5 ∧
    (rag_query_args 7 (some (4 / 5)) none none).threshold = 1 - 4 / 5 ∧
    (eligibleDoc dist0 qv0 7 none (1 - 4 / 5) docA = true ↔
      dist0 qv0 docA.embedding ≤ 1 - 4 / 5) :=
  claim_C4 7 (4 / 5) 1 5 none none none (StoreSearchArgs.mk 7 (1 - 4 / 5) 5 0 none)
    (by norm_num [search_documents_route, userSimilarity]) dist0 qv0 docA rfl rfl

/-- Claim C6: with a `Request` object among the handler's arguments, the
wrapper admits the call exactly when both layers pass or are disabled:
the handler runs iff (`GLOBAL_RATE_LIMIT_CAPACITY ≤ 0` or the global
bucket grants) and (`RATE_LIMIT_CAPACITY ≤ 0` or the per-client bucket
grants); and the issued acquire calls are the global one (present iff its
capacity is positive) followed by the per-client one (present iff the
global layer did not deny and the per-client capacity is positive) — so
the global bucket is checked first, the per-client bucket is never
consulted once the global layer denies, and a layer with non-positive
configured capacity is skipped entirely. -/
theorem claim_C6 (cfg : RateLimitConfig) (kp : String) (decision : String → Bool)
    (r : RequestModel) :
    ((rate_limit_wrapper cfg kp decision (some r)).1 = .handled ↔
      ((cfg.globalCapacity ≤ 0 ∨ decision ("global_limit:" ++ kp) = true) ∧
       (cfg.clientCapacity ≤ 0 ∨ decision (kp ++ ":" ++ clientIpOf r) = true))) ∧
    (rate_limit_wrapper cfg kp decision (some r)).2 =
      (if 0 < cfg.globalCapacity then
        [⟨"global_limit:" ++ kp, cfg.globalCapacity, cfg.globalRate⟩] else []) ++
      (if (cfg.globalCapacity ≤ 0 ∨ decision ("global_limit:" ++ kp) = true) ∧
          0 < cfg.clientCapacity then
        [⟨kp ++ ":" ++ clientIpOf r, cfg.clientCapacity, cfg.clientRate⟩] else []) := by
  simp only [rate_limit_wrapper]
  split_ifs <;> simp_all <;> omega

/-- Claim C6 witness: both layers enabled and granting at a concrete
configuration: the handler runs and the global call precedes the
per-client call. -/
theorem claim_C6_witness :
    ((rate_limit_wrapper ⟨10, 100, 5, 1⟩ "rag_query" (fun _ => true)
        (some ⟨none, none, some "1.2.3.4"⟩)).1 = .handled ↔
      (((10 : ℤ) ≤ 0 ∨ (fun _ : String => true) ("global_limit:" ++ "rag_query") = true) ∧
       ((5 : ℤ) ≤ 0 ∨ (fun _ : String => true)
          ("rag_query" ++ ":" ++ clientIpOf ⟨none, none, some "1.2.3.4"⟩) = true))) ∧
    (rate_limit_wrapper ⟨10, 100, 5, 1⟩ "rag_query" (fun _ => true)
        (some ⟨none, none, some "1.2.3.4"⟩)).2 =
      (if (0 : ℤ) < 10 then
        [⟨"global_limit:" ++ "rag_query", 10, 100⟩] else []) ++
      (if (((10 : ℤ) ≤ 0 ∨ (fun _ : String => true) ("global_limit:" ++ "rag_query") = true) ∧
          (0 : ℤ) < 5) then
        [⟨"rag_query" ++ ":" ++ clientIpOf ⟨none, none, some "1.2.3.4"⟩, 5, 1⟩] else []) :=
  claim_C6 ⟨10, 100, 5, 1⟩ "rag_query" (fun _ => true) ⟨none, none, some "1.2.3.4"⟩

/-- Claim C10: when per-client limiting is enabled
(`RATE_LIMIT_CAPACITY > 0`) but no `Request` object is found among the
wrapped handler's arguments, the wrapper skips the per-client bucket
entirely: admission is decided by the global layer alone, and the only
acquire call possibly issued is the global one. -/
theorem claim_C10 (cfg : RateLimitConfig) (kp : String) (decision : String → Bool)
    (h : 0 < cfg.clientCapacity) :
    ((rate_limit_wrapper cfg kp decision none).1 = .handled ↔
      (cfg.globalCapacity ≤ 0 ∨ decision ("global_limit:" ++ kp) = true)) ∧
    (rate_limit_wrapper cfg kp decision none).2 =
      (if 0 < cfg.globalCapacity then
        [⟨"global_limit:" ++ kp, cfg.globalCapacity, cfg.globalRate⟩] else []) := by
  simp only [rate_limit_wrapper]
  split_ifs <;> simp_all

/-- The script on a present bucket whose `last_refill` equals the current
timestamp: no time has elapsed, so the refill adds nothing and only the
capacity cap applies. -/
lemma tokenBucketScript_same_time (c r t req tok : ℚ) :
    tokenBucketScript c r t req (some ⟨tok, t⟩) =
      if req ≤ min c tok then (true, ⟨min c tok - req, t⟩)
      else (false, ⟨min c tok, t⟩) := by
  simp [tokenBucketScript]

/-- The script on an absent bucket: it is initialised full with
`last_refill = now`, so the refill adds nothing. -/
lemma tokenBucketScript_fresh (c r t req : ℚ) :
    tokenBucketScript c r t req none =
      if req ≤ c then (true, ⟨c - req, t⟩) else (false, ⟨c, t⟩) := by
  simp [tokenBucketScript]

/-- During a same-timestamp burst from a fresh bucket of integer capacity
`C`, the `(k+1)`-th single-token call (for `k < C`) succeeds and leaves
`C - (k+1)` tokens. -/
lemma burstCall_state (C : ℕ) (r t : ℚ) :
    ∀ k : ℕ, k < C → burstCall (C : ℚ) r t k = (true, ⟨(C : ℚ) - (k + 1), t⟩) := by
  intro k
  induction k with
  | zero =>
    intro hk
    have h1 : (1 : ℚ) ≤ (C : ℚ) := by exact_mod_cast hk
    simp only [burstCall, tokenBucketScript_fresh, if_pos h1]
    norm_num
  | succ k ih =>
    intro hk
    have hk' : k < C := Nat.lt_of_succ_lt hk
    have hstate := ih hk'
    have hsub : (C : ℚ) - (k + 1) ≤ (C : ℚ) := by
      have : (0 : ℚ) ≤ (k : ℚ) + 1 := by positivity
      linarith
    have hmin : min (C : ℚ) ((C : ℚ) - (k + 1)) = (C : ℚ) - (k + 1) :=
      min_eq_right hsub
    have henough : (1 : ℚ) ≤ (C : ℚ) - (k + 1) := by
      have : (k : ℚ) + 2 ≤ (C : ℚ) := by exact_mod_cast hk
      linarith
    simp only [burstCall, hstate, tokenBucketScript_same_time, hmin, if_pos henough]
    simp only [Prod.mk.injEq, BucketState.mk.injEq, true_and, and_true]
    push_cast
    ring

/-- Claim C5: from a fresh (absent) bucket with integer capacity `C ≥ 1`
and refill rate `r > 0`, the first `C` single-token acquisitions at one
timestamp `t` all succeed, the `(C+1)`-th at `t` fails, and after `1/r`
seconds exactly one further single-token acquisition succeeds (the next
one at that same later timestamp fails again). -/
theorem claim_C5 (C : ℕ) (r t : ℚ) (hC : 0 < C) (hr : 0 < r) :
    (∀ k, k < C → (burstCall (C : ℚ) r t k).1 = true) ∧
    (burstCall (C : ℚ) r t C).1 = false ∧
    (tokenBucketScript (C : ℚ) r (t + 1 / r) 1 (some (burstCall (C : ℚ) r t C).2)).1 = true ∧
    (tokenBucketScript (C : ℚ) r (t + 1 / r) 1
      (some (tokenBucketScript (C : ℚ) r (t + 1 / r) 1
        (some (burstCall (C : ℚ) r t C).2)).2)).1 = false := by
  have hC1 : (1 : ℚ) ≤ (C : ℚ) := by exact_mod_cast hC
  have hCnn : (0 : ℚ) ≤ (C : ℚ) := by positivity
  obtain ⟨m, rfl⟩ : ∃ m, C = m + 1 := ⟨C - 1, (Nat.succ_pred_eq_of_pos hC).symm⟩
  have hprev := burstCall_state (m + 1) r t m (Nat.lt_succ_self m)
  have hzero : ((m + 1 : ℕ) : ℚ) - ((m : ℚ) + 1) = 0 := by push_cast; ring
  have hfail : burstCall ((m + 1 : ℕ) : ℚ) r t (m + 1) = (false, ⟨0, t⟩) := by
    rw [show burstCall ((m + 1 : ℕ) : ℚ) r t (m + 1) =
        tokenBucketScript ((m + 1 : ℕ) : ℚ) r t 1
          (some (burstCall ((m + 1 : ℕ) : ℚ) r t m).2) from rfl,
      hprev]
    simp only [hzero, tokenBucketScript_same_time]
    rw [min_eq_right hCnn]
    norm_num
  refine ⟨?_, ?_, ?_, ?_⟩
  · intro k hk
    rw [burstCall_state (m + 1) r t k hk]
  · rw [hfail]
  · rw [hfail]
    have hmax : max 0 (t + 1 / r - t) = 1 / r := by
      rw [show t + 1 / r - t = 1 / r by ring]
      exact max_eq_right (div_nonneg zero_le_one hr.le)
    have hone : (0 : ℚ) + max 0 (t + 1 / r - t) * r = 1 := by
      rw [hmax, zero_add, one_div, inv_mul_cancel₀ hr.ne']
    simp only [tokenBucketScript, hone]
    rw [min_eq_right hC1]
    norm_num
  · rw [hfail]
    have hmax : max 0 (t + 1 / r - t) = 1 / r := by
      rw [show t + 1 / r - t = 1 / r by ring]
      exact max_eq_right (div_nonneg zero_le_one hr.le)
    have hone : (0 : ℚ) + max 0 (t + 1 / r - t) * r = 1 := by
      rw [hmax, zero_add, one_div, inv_mul_cancel₀ hr.ne']
    have hstep : tokenBucketScript ((m + 1 : ℕ) : ℚ) r (t + 1 / r) 1 (some ⟨0, t⟩) =
        (true, ⟨0, t + 1 / r⟩) := by
      simp only [tokenBucketScript, hone]
      rw [min_eq_right hC1]
      norm_num
    rw [hstep, tokenBucketScript_same_time, min_eq_right hCnn]
    norm_num

/-- Claim C5 witness: capacity 2, rate 1, starting at time 0: two
successes, a failure, one success after 1 second, then failure again. -/
theorem claim_C5_witness :
    (burstCall ((2 : ℕ) : ℚ) 1 0 0).1 = true ∧
    (burstCall ((2 : ℕ) : ℚ) 1 0 1).1 = true ∧
    (burstCall ((2 : ℕ) : ℚ) 1 0 2).1 = false ∧
    (tokenBucketScript ((2 : ℕ) : ℚ) 1 (0 + 1 / 1) 1
      (some (burstCall ((2 : ℕ) : ℚ) 1 0 2).2)).1 = true ∧
    (tokenBucketScript ((2 : ℕ) : ℚ) 1 (0 + 1 / 1) 1
      (some (tokenBucketScript ((2 : ℕ) : ℚ) 1 (0 + 1 / 1) 1
        (some (burstCall ((2 : ℕ) : ℚ) 1 0 2).2)).2)).1 = false :=
  ⟨(claim_C5 2 1 0 (by norm_num) (by norm_num)).1 0 (by norm_num),
   (claim_C5 2 1 0 (by norm_num) (by norm_num)).1 1 (by norm_num),
   (claim_C5 2 1 0 (by norm_num) (by norm_num)).2.1,
   (claim_C5 2 1 0 (by norm_num) (by norm_num)).2.2.1,
   (claim_C5 2 1 0 (by norm_num) (by norm_num)).2.2.2⟩

/-- Claim C10 witness: per-client capacity 5, no `Request` found: the
handler runs after only the (granting) global check. -/
theorem claim_C10_witness :
    ((rate_limit_wrapper ⟨10, 100, 5, 1⟩ "rag_query" (fun _ => true) none).1 = .handled ↔
      ((10 : ℤ) ≤ 0 ∨ (fun _ : String => true) ("global_limit:" ++ "rag_query") = true)) ∧
    (rate_limit_wrapper ⟨10, 100, 5, 1⟩ "rag_query" (fun _ => true) none).2 =
      (if (0 : ℤ) < 10 then [⟨"global_limit:" ++ "rag_query", 10, 100⟩] else []) :=
  claim_C10 ⟨10, 100, 5, 1⟩ "rag_query" (fun _ => true) (by norm_num)

end YourRAG
